import Mathlib

/-!
Verification of the coffee-shop menu API's authorization layer and route
handlers.  The HTTP handlers are embedded from `backend/src/api.py`.  The
authorization module (`auth/auth.py`) is not part of the provided sources,
so its components — credential extractor, signature-and-claims verifier,
permission enforcer, and the composing gate — are modelled from the
specification's contracts, with cryptographic signatures taken symbolically.
-/

/-- Modelled from the spec: the taxonomy of typed rejection reasons produced
by the authorization layer (the `auth` module is absent from the sources). -/
inductive RejectionKind
  | MissingHeader
  | MalformedHeader
  | UnsupportedScheme
  | MalformedToken
  | UnsupportedAlgorithm
  | UnknownSigningKey
  | InvalidSignature
  | TokenExpired
  | IssuerMismatch
  | AudienceMismatch
  | PermissionsClaimMissing
  | PermissionDenied
deriving DecidableEq, Repr

/-- Modelled from the spec: the deterministic HTTP status assigned to each
rejection kind — authentication problems are 401, authorization problems 403. -/
def rejectionStatus : RejectionKind → Nat
  | .MissingHeader => 401
  | .MalformedHeader => 401
  | .UnsupportedScheme => 401
  | .MalformedToken => 401
  | .UnsupportedAlgorithm => 401
  | .UnknownSigningKey => 401
  | .InvalidSignature => 401
  | .TokenExpired => 401
  | .IssuerMismatch => 401
  | .AudienceMismatch => 401
  | .PermissionsClaimMissing => 403
  | .PermissionDenied => 403

/-- Modelled from the spec: the short human-readable message attached to each
rejection when it is rendered to the client. -/
def rejectionMessage : RejectionKind → String
  | .MissingHeader => "authorization header is expected"
  | .MalformedHeader => "authorization header must be bearer token"
  | .UnsupportedScheme => "authorization header must start with Bearer"
  | .MalformedToken => "unable to parse authentication token"
  | .UnsupportedAlgorithm => "token signed with an unsupported algorithm"
  | .UnknownSigningKey => "unable to find the appropriate key"
  | .InvalidSignature => "token signature is invalid"
  | .TokenExpired => "token expired"
  | .IssuerMismatch => "incorrect issuer"
  | .AudienceMismatch => "incorrect audience"
  | .PermissionsClaimMissing => "permissions not included in JWT"
  | .PermissionDenied => "permission not found"

/-- Modelled from the spec: a decoded claim set — standard claims plus an
optional `permissions` entry (absent when the token carries no scoping). -/
structure ClaimSet where
  iss : String
  aud : String
  exp : Nat
  permissions : Option (List String)
deriving DecidableEq, Repr

/-- Modelled from the spec: a symbolic signature over a token's payload.
`signedWith` names the public key that verifies it, `over` the payload it
covers; cryptography is abstracted Dolev-Yao style. -/
structure Sig where
  signedWith : String
  over : ClaimSet
deriving DecidableEq, Repr

/-- Modelled from the spec: a presented token — either structurally malformed
(not three parseable dot-separated segments) or carrying a header that
declares an algorithm and key-id, a payload, and a signature. -/
inductive Token
  | malformed (raw : String)
  | wellFormed (alg : String) (kid : String) (payload : ClaimSet) (sig : Sig)
deriving DecidableEq, Repr

/-- Split a character list at every space, the semantics of splitting a
string on the single-space separator. -/
def splitSpace : List Char → List (List Char)
  | [] => [[]]
  | c :: cs =>
    match splitSpace cs with
    | [] => [[]]
    | r :: rs => if c = ' ' then [] :: r :: rs else (c :: r) :: rs

/-- The space-separated parts of a header value. -/
def headerParts (h : String) : List String :=
  (splitSpace h.data).map String.mk

/-- Modelled from the spec: dispatch on the space-separated parts of the
authorization header — exactly two parts whose first is the literal
`Bearer`, otherwise a malformed-header or unsupported-scheme rejection. -/
def parseParts : List String → Except RejectionKind String
  | [scheme, token] =>
      if scheme = "Bearer" then .ok token else .error .UnsupportedScheme
  | _ => .error .MalformedHeader

/-- Modelled from the spec: the Credential Extractor — pulls the bearer token
out of the raw authorization header value. -/
def extract : Option String → Except RejectionKind String
  | none => .error .MissingHeader
  | some h => parseParts (headerParts h)

/-- Modelled from the spec: look up a public key by key-id in the signing key
set (an association list from key-id to key material). -/
def lookupKey : List (String × String) → String → Option String
  | [], _ => none
  | (k, v) :: rest, kid => if k = kid then some v else lookupKey rest kid

/-- Modelled from the spec: the single algorithm admitted by policy (the
RS256-equivalent asymmetric family). -/
def allowedAlg : String := "RS256"

/-- Modelled from the spec: symbolic signature verification — the signature
is valid when it was produced with the located key over exactly this payload. -/
def sigValid (key : String) (payload : ClaimSet) (sig : Sig) : Bool :=
  sig.signedWith == key && sig.over == payload

/-- Modelled from the spec: the Signature and Claims Verifier — structural
check, algorithm policy, key lookup, signature verification, then standard
claim validation (expiry, issuer, audience), in that order. -/
def verify (tok : Token) (keySet : List (String × String)) (now : Nat)
    (expectedIss expectedAud : String) : Except RejectionKind ClaimSet :=
  match tok with
  | .malformed _ => .error .MalformedToken
  | .wellFormed alg kid payload sig =>
    if alg ≠ allowedAlg then .error .UnsupportedAlgorithm
    else
      match lookupKey keySet kid with
      | none => .error .UnknownSigningKey
      | some key =>
        if ¬ sigValid key payload sig then .error .InvalidSignature
        else if payload.exp ≤ now then .error .TokenExpired
        else if payload.iss ≠ expectedIss then .error .IssuerMismatch
        else if payload.aud ≠ expectedAud then .error .AudienceMismatch
        else .ok payload

/-- Modelled from the spec: the Permission Enforcer — missing `permissions`
entry, required permission not a member, or success. -/
def check (claims : ClaimSet) (required : String) : Except RejectionKind Unit :=
  match claims.permissions with
  | none => .error .PermissionsClaimMissing
  | some perms =>
      if required ∈ perms then .ok () else .error .PermissionDenied

/-- The per-process environment the gate consumes: the token codec (base64url
plus JSON decoding, abstracted as a function from token text to its decoded
structure), the signing key set, the clock, and the expected issuer and
audience. -/
structure AuthEnv where
  tokenOf : String → Token
  keySet : List (String × String)
  now : Nat
  expectedIss : String
  expectedAud : String

/-- Modelled from the spec: the Authorization Gate — extractor, verifier and
enforcer composed in strict sequence, short-circuiting on the first failure
and yielding the decoded claim set on success. -/
def authorize (env : AuthEnv) (rawHeader : Option String) (required : String) :
    Except RejectionKind ClaimSet :=
  match extract rawHeader with
  | .error k => .error k
  | .ok tokenStr =>
    match verify (env.tokenOf tokenStr) env.keySet env.now
        env.expectedIss env.expectedAud with
    | .error k => .error k
    | .ok claims =>
      match check claims required with
      | .error k => .error k
      | .ok _ => .ok claims

/-- Modelled from the spec: the `requires_auth` decorator — wraps an operation
body behind the gate for a fixed required permission, injecting the verified
claim set as the body's argument, or rejecting with the kind and its status. -/
def requires_auth {α : Type} (permission : String) (f : ClaimSet → α)
    (env : AuthEnv) (rawHeader : Option String) :
    Except (RejectionKind × Nat) α :=
  match authorize env rawHeader permission with
  | .error k => .error (k, rejectionStatus k)
  | .ok claims => .ok (f claims)

/-- A JSON value, the shape of every response body `jsonify` produces. -/
inductive JVal
  | jnull
  | jbool (b : Bool)
  | jnum (n : Int)
  | jstr (s : String)
  | jarr (elems : List JVal)
  | jobj (fields : List (String × JVal))

/-- Field lookup in a JSON object's association list. -/
def jlookup : List (String × JVal) → String → Option JVal
  | [], _ => none
  | (k, v) :: rest, key => if k = key then some v else jlookup rest key

/-- A rejection envelope is well-formed for `status` when it is a JSON object
whose `success` field is `false`, whose `error` field is the numeric status,
and whose `message` field is a non-empty string. -/
def envelopeOk (v : JVal) (status : Nat) : Bool :=
  match v with
  | .jobj fields =>
      (match jlookup fields "success" with
       | some (.jbool b) => b == false
       | _ => false) &&
      (match jlookup fields "error" with
       | some (.jnum n) => n == (status : Int)
       | _ => false) &&
      (match jlookup fields "message" with
       | some (.jstr m) => m != ""
       | _ => false)
  | _ => false

/-- The `@app.errorhandler(422)` body of `api.py`. -/
def unprocessable : JVal × Nat :=
  (.jobj [("success", .jbool false), ("error", .jnum 422),
          ("message", .jstr "unprocessable")], 422)

/-- The `@app.errorhandler(404)` body of `api.py`. -/
def not_found : JVal × Nat :=
  (.jobj [("success", .jbool false), ("error", .jnum 404),
          ("message", .jstr "resource not found")], 404)

/-- The `@app.errorhandler(400)` body of `api.py`. -/
def bad_request : JVal × Nat :=
  (.jobj [("success", .jbool false), ("error", .jnum 400),
          ("message", .jstr "bad request")], 400)

/-- The `@app.errorhandler(405)` body of `api.py`. -/
def not_allowed : JVal × Nat :=
  (.jobj [("success", .jbool false), ("error", .jnum 405),
          ("message", .jstr "method not allowed")], 405)

/-- The `@app.errorhandler(401)` body of `api.py`: passes the error's
description through as the message. -/
def user_unauthorized (description : String) : JVal × Nat :=
  (.jobj [("success", .jbool false), ("error", .jnum 401),
          ("message", .jstr description)], 401)

/-- The `@app.errorhandler(403)` body of `api.py`: passes the error's
description through as the message. -/
def resource_unauthorized (description : String) : JVal × Nat :=
  (.jobj [("success", .jbool false), ("error", .jnum 403),
          ("message", .jstr description)], 403)

/-- How an authorization rejection reaches the client: the 403 handler for
authorization problems, the 401 handler otherwise, with the rejection's
message as the description. -/
def renderRejection (k : RejectionKind) : JVal × Nat :=
  if rejectionStatus k = 403 then resource_unauthorized (rejectionMessage k)
  else user_unauthorized (rejectionMessage k)

/-- A persisted drink row: id primary key, title, and the recipe as the
stored JSON text (`models.py` is absent from the sources; the row shape is
taken from its use in `api.py`). -/
structure Drink where
  id : Nat
  title : String
  recipe : String
deriving DecidableEq, Repr

/-- The `drink.short()` representation used by the public listing. -/
def Drink.short (d : Drink) : JVal :=
  .jobj [("id", .jnum d.id), ("title", .jstr d.title)]

/-- The `drink.long()` representation used by the detailed endpoints. -/
def Drink.long (d : Drink) : JVal :=
  .jobj [("id", .jnum d.id), ("title", .jstr d.title),
         ("recipe", .jstr d.recipe)]

/-- The drinks store: the persisted rows plus the autoincrement counter the
next insert will use. -/
structure DBState where
  drinks : List Drink
  nextId : Nat
deriving Repr

/-- Insert a drink into a list sorted by ascending id. -/
def insertById (d : Drink) : List Drink → List Drink
  | [] => [d]
  | x :: xs => if d.id ≤ x.id then d :: x :: xs else x :: insertById d xs

/-- `Drink.query.order_by(Drink.id).all()`: the rows sorted by id. -/
def sortById (l : List Drink) : List Drink :=
  l.foldr insertById []

/-- The parsed JSON request body as the drink handlers read it: an optional
`title` and an optional `recipe` (the recipe's JSON shape abstracted as the
stored text). -/
structure DrinkBody where
  title : Option String
  recipe : Option String
deriving DecidableEq, Repr

/-- A Python exception escaping a handler: a `KeyError` from a missing
subscript, or a Flask `abort(status)` (an `HTTPException`, itself a subclass
of `Exception`). -/
inductive PyExc
  | keyError (key : String)
  | abort (status : Nat)
deriving DecidableEq, Repr

/-- The body of the success responses `jsonify(success=True, drinks=...)`. -/
def drinksResponse (ds : List JVal) : JVal :=
  .jobj [("success", .jbool true), ("drinks", .jarr ds)]

/-- `GET /drinks` (`get_drinks` in `api.py`): public, lists the short
representation of every drink in id order. -/
def get_drinks (s : DBState) : JVal × DBState :=
  (drinksResponse ((sortById s.drinks).map Drink.short), s)

/-- `GET /drinks-detail` (`get_drinks_detail` in `api.py`): receives the
decoded jwt, lists the long representation of every drink in id order. -/
def get_drinks_detail (jwt : ClaimSet) (s : DBState) : JVal × DBState :=
  (drinksResponse ((sortById s.drinks).map Drink.long), s)

/-- `POST /drinks` (`create_drink` in `api.py`): the subscripts
`body['title']` and `body['recipe']` run before the `try` block, so a missing
key raises `KeyError`; inside the `try` the new row is inserted and echoed. -/
def create_drink (jwt : ClaimSet) (body : DrinkBody) (s : DBState) :
    Except PyExc (JVal × DBState) :=
  match body.title, body.recipe with
  | none, _ => .error (.keyError "title")
  | some _, none => .error (.keyError "recipe")
  | some newTitle, some newRecipe =>
      let drink : Drink := ⟨s.nextId, newTitle, newRecipe⟩
      .ok (drinksResponse [drink.long], ⟨s.drinks ++ [drink], s.nextId + 1⟩)

/-- The `try` block of `edit_drink`: look the row up by id, `abort(404)` when
absent, otherwise apply the optional title and recipe updates. -/
def edit_drink_try (jwt : ClaimSet) (body : DrinkBody) (id : Nat)
    (s : DBState) : Except PyExc (JVal × DBState) :=
  match s.drinks.find? (fun d => d.id == id) with
  | none => .error (.abort 404)
  | some d =>
      let d' : Drink := ⟨d.id, body.title.getD d.title,
                         body.recipe.getD d.recipe⟩
      .ok (drinksResponse [d'.long],
           ⟨s.drinks.map (fun x => if x.id == id then d' else x), s.nextId⟩)

/-- `PATCH /drinks/<id>` (`edit_drink` in `api.py`): its blanket
`except Exception` catches everything the `try` block raises — including the
`abort(404)` `HTTPException` — and re-aborts with 422. -/
def edit_drink (jwt : ClaimSet) (body : DrinkBody) (id : Nat) (s : DBState) :
    Except PyExc (JVal × DBState) :=
  match edit_drink_try jwt body id s with
  | .error _ => .error (.abort 422)
  | .ok r => .ok r

/-- The `try` block of `delete_drink`: look the row up by id, `abort(404)`
when absent, otherwise delete it and return its id. -/
def delete_drink_try (jwt : ClaimSet) (id : Nat) (s : DBState) :
    Except PyExc (JVal × DBState) :=
  match s.drinks.find? (fun d => d.id == id) with
  | none => .error (.abort 404)
  | some d =>
      .ok (.jobj [("success", .jbool true), ("delete", .jnum d.id)],
           ⟨s.drinks.filter (fun x => x.id != id), s.nextId⟩)

/-- `DELETE /drinks/<id>` (`delete_drink` in `api.py`): like `edit_drink`,
its blanket `except Exception` swallows the `abort(404)` and re-aborts 422. -/
def delete_drink (jwt : ClaimSet) (id : Nat) (s : DBState) :
    Except PyExc (JVal × DBState) :=
  match delete_drink_try jwt id s with
  | .error _ => .error (.abort 422)
  | .ok r => .ok r

/-- The five routes of `api.py`. -/
inductive Endpoint
  | getDrinks
  | getDrinksDetail
  | createDrink
  | editDrink
  | deleteDrink
deriving DecidableEq, Repr

/-- The `@requires_auth(...)` decoration of each route in `api.py`:
`get_drinks` carries none, the other four each a fixed permission. -/
def requiredPermission : Endpoint → Option String
  | .getDrinks => none
  | .getDrinksDetail => some "get:drinks-detail"
  | .createDrink => some "post:drinks"
  | .editDrink => some "patch:drinks"
  | .deleteDrink => some "delete:drinks"

/-- The observable outcome of serving one request: a 200 body with the
resulting store, a gate rejection (the body never ran), an aborted HTTP
error with the store it left behind, or an uncaught Python exception. -/
inductive EndpointResult
  | ok (body : JVal) (s : DBState)
  | authRejected (k : RejectionKind) (status : Nat)
  | httpError (status : Nat) (s : DBState)
  | pythonError (key : String)

/-- Run a body behind the gate for a permission, as the decorator does. -/
def runGuarded (permission : String) (env : AuthEnv) (hdr : Option String)
    (body : ClaimSet → EndpointResult) : EndpointResult :=
  match authorize env hdr permission with
  | .error k => .authRejected k (rejectionStatus k)
  | .ok claims => body claims

/-- Classify a handler's outcome: an escaping `abort` leaves the store as the
handler found it; a `KeyError` escapes uncaught. -/
def liftHandler (s : DBState) :
    Except PyExc (JVal × DBState) → EndpointResult
  | .error (.keyError k) => .pythonError k
  | .error (.abort st) => .httpError st s
  | .ok (r, s') => .ok r s'

/-- Serve one request: `GET /drinks` runs its body directly with no gate; the
other four endpoints run their body behind the gate for their permission. -/
def dispatch (ep : Endpoint) (env : AuthEnv) (hdr : Option String)
    (body : DrinkBody) (id : Nat) (s : DBState) : EndpointResult :=
  match ep with
  | .getDrinks =>
      let r := get_drinks s
      .ok r.1 r.2
  | .getDrinksDetail => runGuarded "get:drinks-detail" env hdr fun jwt =>
      let r := get_drinks_detail jwt s
      .ok r.1 r.2
  | .createDrink => runGuarded "post:drinks" env hdr fun jwt =>
      liftHandler s (create_drink jwt body s)
  | .editDrink => runGuarded "patch:drinks" env hdr fun jwt =>
      liftHandler s (edit_drink jwt body id s)
  | .deleteDrink => runGuarded "delete:drinks" env hdr fun jwt =>
      liftHandler s (delete_drink jwt id s)

/-- The store an endpoint result leaves behind, when it carries one. -/
def stateOf : EndpointResult → Option DBState
  | .ok _ s => some s
  | .httpError _ s => some s
  | .authRejected _ _ => none
  | .pythonError _ => none

/-- A concrete claim set fixture holding all four route permissions. -/
def cs0 : ClaimSet :=
  ⟨"https://issuer.example/", "drinks", 100,
   some ["get:drinks-detail", "post:drinks", "patch:drinks", "delete:drinks"]⟩

/-- A concrete environment fixture whose codec decodes every token text to a
correctly signed token carrying `cs0`, with a matching key set and clock. -/
def env0 : AuthEnv :=
  ⟨fun _ => .wellFormed "RS256" "k1" cs0 ⟨"pub1", cs0⟩,
   [("k1", "pub1")], 0, "https://issuer.example/", "drinks"⟩

/-- `parseParts` on any list that is not exactly two parts is the
malformed-header rejection. -/
theorem parseParts_len_ne_two (l : List String) (hlen : l.length ≠ 2) :
    parseParts l = .error .MalformedHeader := by
  cases l with
  | nil => rfl
  | cons a t =>
    cases t with
    | nil => rfl
    | cons b t2 =>
      cases t2 with
      | nil => simp at hlen
      | cons c t3 => rfl

/-- C1: every rejection kind maps to 401 exactly when it is one of the ten
authentication failures and to 403 exactly when it is a scope failure, and
to no other status; the mapping is a total function, hence deterministic. -/
theorem status_mapping_C1 : ∀ k : RejectionKind,
    (rejectionStatus k = 401 ↔
      k ∈ ([.MissingHeader, .MalformedHeader, .UnsupportedScheme,
            .MalformedToken, .UnsupportedAlgorithm, .UnknownSigningKey,
            .InvalidSignature, .TokenExpired, .IssuerMismatch,
            .AudienceMismatch] : List RejectionKind)) ∧
    (rejectionStatus k = 403 ↔
      k = .PermissionsClaimMissing ∨ k = .PermissionDenied) ∧
    (rejectionStatus k = 401 ∨ rejectionStatus k = 403) := by
  intro k
  cases k <;> decide

/-- C1 witness: the mapping at two concrete kinds. -/
theorem status_mapping_C1_witness :
    rejectionStatus .TokenExpired = 401 ∧
    rejectionStatus .PermissionDenied = 403 := by
  refine ⟨?_, ?_⟩
  · rcases (status_mapping_C1 .TokenExpired).2.2 with h | h
    · exact h
    · exact absurd ((status_mapping_C1 .TokenExpired).2.1.mp h) (by decide)
  · rcases (status_mapping_C1 .PermissionDenied).2.2 with h | h
    · exact absurd ((status_mapping_C1 .PermissionDenied).1.mp h) (by decide)
    · exact h

/-- C3: the credential extractor fails with `MissingHeader` on an absent
header, `MalformedHeader` when the header is not exactly two space-separated
parts, `UnsupportedScheme` when the first part is not the case-sensitive
literal `Bearer`, and otherwise returns the second part verbatim. -/
theorem extract_spec_C3 :
    extract none = .error .MissingHeader ∧
    (∀ h : String, (headerParts h).length ≠ 2 →
      extract (some h) = .error .MalformedHeader) ∧
    (∀ h scheme token, headerParts h = [scheme, token] → scheme ≠ "Bearer" →
      extract (some h) = .error .UnsupportedScheme) ∧
    (∀ h token, headerParts h = ["Bearer", token] →
      extract (some h) = .ok token) := by
  refine ⟨rfl, ?_, ?_, ?_⟩
  · intro h hlen
    exact parseParts_len_ne_two _ hlen
  · intro h scheme token hsp hne
    show parseParts (headerParts h) = .error .UnsupportedScheme
    rw [hsp]
    simp [parseParts, hne]
  · intro h token hsp
    show parseParts (headerParts h) = .ok token
    rw [hsp]
    simp [parseParts]

/-- C3 witness: the extractor at concrete headers of each shape. -/
theorem extract_spec_C3_witness :
    extract (some "Bearer abc.def.ghi") = .ok "abc.def.ghi" ∧
    extract (some "Basic abc") = .error .UnsupportedScheme ∧
    extract (some "BearerOnly") = .error .MalformedHeader :=
  ⟨extract_spec_C3.2.2.2 "Bearer abc.def.ghi" "abc.def.ghi" (by decide),
   extract_spec_C3.2.2.1 "Basic abc" "Basic" "abc" (by decide) (by decide),
   extract_spec_C3.2.1 "BearerOnly" (by decide)⟩

/-- C4: the permission enforcer fails with `PermissionsClaimMissing` exactly
when the claim set has no `permissions` entry, with `PermissionDenied`
exactly when the entry exists but lacks the required string, and succeeds
exactly when the required string is a member. -/
theorem check_spec_C4 (claims : ClaimSet) (required : String) :
    (check claims required = .error .PermissionsClaimMissing ↔
      claims.permissions = none) ∧
    (check claims required = .error .PermissionDenied ↔
      ∃ perms, claims.permissions = some perms ∧ required ∉ perms) ∧
    (check claims required = .ok () ↔
      ∃ perms, claims.permissions = some perms ∧ required ∈ perms) := by
  rcases hp : claims.permissions with _ | perms
  · simp [check, hp]
  · by_cases hm : required ∈ perms <;> simp [check, hp, hm]

/-- C4 witness: the enforcer on `permissions = [a, b]` with `required = a`
(success), `required = c` (denied), and on a claim set with no permissions
entry (missing). -/
theorem check_spec_C4_witness :
    check ⟨"i", "u", 1, some ["a", "b"]⟩ "a" = .ok () ∧
    check ⟨"i", "u", 1, some ["a", "b"]⟩ "c" = .error .PermissionDenied ∧
    check ⟨"i", "u", 1, none⟩ "a" = .error .PermissionsClaimMissing :=
  ⟨(check_spec_C4 ⟨"i", "u", 1, some ["a", "b"]⟩ "a").2.2.mpr
     ⟨["a", "b"], rfl, by decide⟩,
   (check_spec_C4 ⟨"i", "u", 1, some ["a", "b"]⟩ "c").2.1.mpr
     ⟨["a", "b"], rfl, by decide⟩,
   (check_spec_C4 ⟨"i", "u", 1, none⟩ "a").1.mpr rfl⟩

/-- C7: a well-formed token declaring any algorithm outside the allowed
asymmetric policy — in particular `none` — is rejected with
`UnsupportedAlgorithm` whatever its payload, so an unsigned token never
yields a claim set. -/
theorem verify_alg_C7 (alg kid : String) (payload : ClaimSet) (sig : Sig)
    (keySet : List (String × String)) (now : Nat) (iss aud : String)
    (h : alg ≠ allowedAlg) :
    verify (.wellFormed alg kid payload sig) keySet now iss aud =
      .error .UnsupportedAlgorithm ∧
    ∀ claims,
      verify (.wellFormed "none" kid payload sig) keySet now iss aud ≠
        .ok claims := by
  constructor
  · simp [verify, h]
  · intro claims
    have hne : ("none" : String) ≠ allowedAlg := by decide
    simp [verify, hne]

/-- C7 witness: the verifier rejects a concrete `none`-algorithm token even
though its payload and key set would otherwise verify. -/
theorem verify_alg_C7_witness :
    verify (.wellFormed "none" "k1" cs0 ⟨"pub1", cs0⟩)
        [("k1", "pub1")] 0 "https://issuer.example/" "drinks" =
      .error .UnsupportedAlgorithm :=
  (verify_alg_C7 "none" "k1" cs0 ⟨"pub1", cs0⟩ [("k1", "pub1")] 0
    "https://issuer.example/" "drinks" (by decide)).1

/-- C6: whenever the gate succeeds, the wrapped operation receives the
decoded claim set as its argument; whenever the gate rejects, the response
is the rejection with its status and is independent of the operation body —
the body never runs. -/
theorem gate_injects_claims_C6 {α : Type} (env : AuthEnv)
    (hdr : Option String) (p : String) (f : ClaimSet → α) :
    (∀ claims, authorize env hdr p = .ok claims →
      requires_auth p f env hdr = .ok (f claims)) ∧
    (∀ k, authorize env hdr p = .error k →
      requires_auth p f env hdr = .error (k, rejectionStatus k) ∧
      ∀ g : ClaimSet → α,
        requires_auth p f env hdr = requires_auth p g env hdr) := by
  constructor
  · intro claims h
    simp [requires_auth, h]
  · intro k h
    refine ⟨by simp [requires_auth, h], fun g => ?_⟩
    simp [requires_auth, h]

/-- C6 witness: a concrete handler receives the decoded claim set on a valid
bearer header, and is never reached on a missing header. -/
theorem gate_injects_claims_C6_witness :
    requires_auth "get:drinks-detail"
        (fun c => (c.permissions.getD []).length) env0 (some "Bearer t") =
      .ok 4 ∧
    requires_auth "get:drinks-detail"
        (fun c => (c.permissions.getD []).length) env0 none =
      .error (.MissingHeader, 401) :=
  ⟨(gate_injects_claims_C6 env0 (some "Bearer t") "get:drinks-detail"
      (fun c => (c.permissions.getD []).length)).1 cs0 rfl,
   ((gate_injects_claims_C6 env0 none "get:drinks-detail"
      (fun c => (c.permissions.getD []).length)).2 .MissingHeader rfl).1⟩

/-- C2: `GET /drinks` is served with no authorization gate (its outcome never
consults the header), while each of the other four endpoints is guarded by
exactly the fixed permission its route declares, evaluated before the
operation body. -/
theorem route_guard_C2 :
    requiredPermission .getDrinks = none ∧
    requiredPermission .getDrinksDetail = some "get:drinks-detail" ∧
    requiredPermission .createDrink = some "post:drinks" ∧
    requiredPermission .editDrink = some "patch:drinks" ∧
    requiredPermission .deleteDrink = some "delete:drinks" ∧
    (∀ env env' hdr hdr' body body' id id' s,
      dispatch .getDrinks env hdr body id s =
        dispatch .getDrinks env' hdr' body' id' s) ∧
    (∀ ep p, requiredPermission ep = some p →
      ∀ env hdr body id s k, authorize env hdr p = .error k →
        dispatch ep env hdr body id s = .authRejected k (rejectionStatus k)) := by
  refine ⟨rfl, rfl, rfl, rfl, rfl, ?_, ?_⟩
  · intro env env' hdr hdr' body body' id id' s
    rfl
  · intro ep p hp env hdr body id s k hk
    cases ep with
    | getDrinks => simp [requiredPermission] at hp
    | getDrinksDetail =>
        simp [requiredPermission] at hp
        subst hp
        simp [dispatch, runGuarded, hk]
    | createDrink =>
        simp [requiredPermission] at hp
        subst hp
        simp [dispatch, runGuarded, hk]
    | editDrink =>
        simp [requiredPermission] at hp
        subst hp
        simp [dispatch, runGuarded, hk]
    | deleteDrink =>
        simp [requiredPermission] at hp
        subst hp
        simp [dispatch, runGuarded, hk]

/-- C2 witness: a concrete unauthenticated POST is rejected by the gate
before the creation body runs. -/
theorem route_guard_C2_witness :
    dispatch .createDrink env0 none ⟨none, none⟩ 0 ⟨[], 1⟩ =
      .authRejected .MissingHeader 401 :=
  route_guard_C2.2.2.2.2.2.2 .createDrink "post:drinks" rfl env0 none
    ⟨none, none⟩ 0 ⟨[], 1⟩ .MissingHeader rfl

/-- C5: every registered error handler renders a JSON object carrying the
numeric status under `error`, `success = false`, and a non-empty message;
in particular every authorization rejection rendered through the 401/403
handlers does. -/
theorem rejection_envelope_C5 :
    envelopeOk unprocessable.1 unprocessable.2 = true ∧
    envelopeOk not_found.1 not_found.2 = true ∧
    envelopeOk bad_request.1 bad_request.2 = true ∧
    envelopeOk not_allowed.1 not_allowed.2 = true ∧
    (∀ d : String, d ≠ "" →
      envelopeOk (user_unauthorized d).1 (user_unauthorized d).2 = true ∧
      envelopeOk (resource_unauthorized d).1 (resource_unauthorized d).2
        = true) ∧
    (∀ k : RejectionKind,
      (renderRejection k).2 = rejectionStatus k ∧
      envelopeOk (renderRejection k).1 (renderRejection k).2 = true) := by
  refine ⟨rfl, rfl, rfl, rfl, ?_, ?_⟩
  · intro d hd
    constructor <;>
      simp [envelopeOk, user_unauthorized, resource_unauthorized, jlookup, hd]
  · intro k
    cases k <;> exact ⟨rfl, rfl⟩

/-- C5 witness: the 401 handler at a concrete non-empty description. -/
theorem rejection_envelope_C5_witness :
    envelopeOk (user_unauthorized "token expired").1
      (user_unauthorized "token expired").2 = true :=
  (rejection_envelope_C5.2.2.2.2.1 "token expired" (by decide)).1

/-- C8: when no drink with the requested id exists, the `abort(404)` raised
inside the `try` block of the PATCH and DELETE handlers is caught by their
blanket `except Exception` clause, which re-aborts with 422 — so the client
sees 422, not 404. -/
theorem missing_id_422_C8 (jwt : ClaimSet) (body : DrinkBody) (id : Nat)
    (s : DBState) (h : s.drinks.find? (fun d => d.id == id) = none) :
    edit_drink_try jwt body id s = .error (.abort 404) ∧
    edit_drink jwt body id s = .error (.abort 422) ∧
    delete_drink_try jwt id s = .error (.abort 404) ∧
    delete_drink jwt id s = .error (.abort 422) := by
  have h1 : edit_drink_try jwt body id s = .error (.abort 404) := by
    simp [edit_drink_try, h]
  have h2 : delete_drink_try jwt id s = .error (.abort 404) := by
    simp [delete_drink_try, h]
  exact ⟨h1, by simp [edit_drink, h1], h2, by simp [delete_drink, h2]⟩

/-- C8 witness: editing or deleting id 7 in an empty store yields the 422
abort. -/
theorem missing_id_422_C8_witness :
    edit_drink cs0 ⟨some "t", none⟩ 7 ⟨[], 1⟩ = .error (.abort 422) ∧
    delete_drink cs0 7 ⟨[], 1⟩ = .error (.abort 422) :=
  ⟨(missing_id_422_C8 cs0 ⟨some "t", none⟩ 7 ⟨[], 1⟩ rfl).2.1,
   (missing_id_422_C8 cs0 ⟨some "t", none⟩ 7 ⟨[], 1⟩ rfl).2.2.2⟩

/-- C9: an authorized POST whose body lacks `title` (or has `title` but
lacks `recipe`) raises a `KeyError` from the subscript before the `try`
block — it escapes uncaught instead of becoming the 422 abort used for
other creation failures. -/
theorem missing_key_uncaught_C9 (jwt : ClaimSet) (body : DrinkBody)
    (id : Nat) (s : DBState) :
    (body.title = none →
      create_drink jwt body s = .error (.keyError "title") ∧
      ∀ st, create_drink jwt body s ≠ .error (.abort st)) ∧
    (∀ t, body.title = some t → body.recipe = none →
      create_drink jwt body s = .error (.keyError "recipe")) ∧
    (∀ env hdr claims, authorize env hdr "post:drinks" = .ok claims →
      body.title = none →
      dispatch .createDrink env hdr body id s = .pythonError "title") := by
  obtain ⟨bt, br⟩ := body
  refine ⟨?_, ?_, ?_⟩
  · intro ht
    subst ht
    exact ⟨rfl, fun st => by simp [create_drink]⟩
  · intro t ht hr
    subst ht
    subst hr
    rfl
  · intro env hdr claims hau ht
    subst ht
    simp [dispatch, runGuarded, hau, liftHandler, create_drink]

/-- C9 witness: a concrete authorized POST with an empty body escapes with
the `title` key error. -/
theorem missing_key_uncaught_C9_witness :
    dispatch .createDrink env0 (some "Bearer t") ⟨none, some "r"⟩ 0 ⟨[], 1⟩ =
      .pythonError "title" :=
  (missing_key_uncaught_C9 cs0 ⟨none, some "r"⟩ 0 ⟨[], 1⟩).2.2
    env0 (some "Bearer t") cs0 rfl rfl

/-- C10: the two read endpoints leave the drinks store exactly as they found
it — `get_drinks` and `get_drinks_detail` return the store unchanged, and
their dispatched requests never produce a store different from the one they
received. -/
theorem reads_pure_C10 :
    (∀ s, (get_drinks s).2 = s) ∧
    (∀ jwt s, (get_drinks_detail jwt s).2 = s) ∧
    (∀ env hdr body id s,
      stateOf (dispatch .getDrinks env hdr body id s) = some s) ∧
    (∀ env hdr body id s s',
      stateOf (dispatch .getDrinksDetail env hdr body id s) = some s' →
        s' = s) := by
  refine ⟨fun s => rfl, fun jwt s => rfl, fun env hdr body id s => rfl, ?_⟩
  intro env hdr body id s s' hst
  rcases hau : authorize env hdr "get:drinks-detail" with k | claims <;>
    simp [dispatch, runGuarded, hau, stateOf, get_drinks_detail] at hst
  exact hst.symm

/-- C10 witness: a concrete authorized detail read leaves a one-drink store
intact. -/
theorem reads_pure_C10_witness :
    (⟨[⟨1, "water", "w"⟩], 2⟩ : DBState) = ⟨[⟨1, "water", "w"⟩], 2⟩ ∧
    stateOf (dispatch .getDrinksDetail env0 (some "Bearer t") ⟨none, none⟩ 0
      ⟨[⟨1, "water", "w"⟩], 2⟩) = some ⟨[⟨1, "water", "w"⟩], 2⟩ :=
  ⟨reads_pure_C10.2.2.2 env0 (some "Bearer t") ⟨none, none⟩ 0
     ⟨[⟨1, "water", "w"⟩], 2⟩ ⟨[⟨1, "water", "w"⟩], 2⟩ rfl, rfl⟩
